import Mathlib

/-!
Shallow embedding of the inventory-management backend (`src/main.py`,
schema from `src/scripts/setup_database.py`).

The persistent store is a SQLite database with tables `users`,
`categories`, `locations`, `printers`, `inventory_items`,
`transactions`; each table is modelled as a list of rows plus an
autoincrement counter.  SQL `REAL` money values are modelled as exact
rationals; Python's `round(x, 2)` is modelled as round-half-even at two
decimal places.  An endpoint is a function `DB → args → DB × Outcome α`:
`Outcome.ok` is a 200-class return, `Outcome.httpError` a raised
`HTTPException(status_code, detail)`, and `Outcome.serverError` an
exception that propagates uncaught out of the handler (FastAPI's 500).
A failed SQL statement rolls back that statement, so every error path
returns the unchanged database.
-/

namespace IMS

/-- Round-half-even to an integer, the tie-breaking rule of Python's
built-in `round`. -/
def roundHalfEven (q : ℚ) : ℤ :=
  if q - ⌊q⌋ < 1/2 then ⌊q⌋
  else if 1/2 < q - ⌊q⌋ then ⌊q⌋ + 1
  else if ⌊q⌋ % 2 = 0 then ⌊q⌋ else ⌊q⌋ + 1

/-- `round(x, 2)` from `main.py`: round to 2 decimal places. -/
def round2 (q : ℚ) : ℚ := (roundHalfEven (q * 100) : ℚ) / 100

/-- Row of the `users` table. -/
structure User where
  id : Int
  username : String
  password : String
  email : String
  role : String
deriving DecidableEq

/-- Row of the `categories` table. -/
structure Category where
  id : Int
  name : String
  description : Option String
deriving DecidableEq

/-- Row of the `locations` table. -/
structure Location where
  id : Int
  name : String
  address : String
deriving DecidableEq

/-- Row of the `printers` table. -/
structure Printer where
  id : Int
  model : String
  serial_number : String
  location_id : Int
  status : String
  supplies : Option String
deriving DecidableEq

/-- Row of the `inventory_items` table. -/
structure InventoryItem where
  id : Int
  name : String
  sku : String
  category_id : Int
  quantity : Int
  min_stock : Int
  price : ℚ
  location_id : Int
  printer_id : Option Int
  status : String
deriving DecidableEq

/-- Row of the `transactions` table. -/
structure Transaction where
  id : Int
  item_id : Int
  location_id : Int
  transaction_type : String
  quantity : Int
  price_per_unit : ℚ
  total_amount : ℚ
  payment_status : String
  payment_date : Option String
  notes : Option String
deriving DecidableEq

/-- Request body `UserRegister`. -/
structure UserRegister where
  username : String
  password : String
  email : String
  role : String := "Manager"
deriving DecidableEq

/-- Request body `CategoryCreate`. -/
structure CategoryCreate where
  name : String
  description : Option String := none
deriving DecidableEq

/-- Request body `LocationCreate`. -/
structure LocationCreate where
  name : String
  address : String
deriving DecidableEq

/-- Request body `PrinterCreate`. -/
structure PrinterCreate where
  model : String
  serial_number : String
  location_id : Int
  status : String := "Active"
  supplies : Option String := none
deriving DecidableEq

/-- Request body `InventoryItemCreate` (also used for updates). -/
structure InventoryItemCreate where
  name : String
  sku : String
  category_id : Int
  quantity : Int
  min_stock : Int
  price : ℚ
  location_id : Int
deriving DecidableEq

/-- Request body `TransactionCreate`. -/
structure TransactionCreate where
  item_id : Int
  location_id : Int
  transaction_type : String
  quantity : Int
  price_per_unit : ℚ
  payment_status : String := "Pending"
  payment_date : Option String := none
  notes : Option String := none
deriving DecidableEq

/-- How a request handler in `main.py` terminates. -/
inductive Outcome (α : Type) where
  | ok : α → Outcome α
  | httpError : Int → String → Outcome α
  | serverError : String → Outcome α
deriving DecidableEq

/-- Whether the handler returned normally (a 200-class response). -/
def Outcome.isOk {α : Type} : Outcome α → Bool
  | .ok _ => true
  | _ => false

/-- The whole SQLite store: one list of rows per table plus the
autoincrement counter each table's `INTEGER PRIMARY KEY AUTOINCREMENT`
column maintains. -/
structure DB where
  users : List User
  categories : List Category
  locations : List Location
  printers : List Printer
  items : List InventoryItem
  transactions : List Transaction
  nextUserId : Int
  nextCategoryId : Int
  nextLocationId : Int
  nextPrinterId : Int
  nextItemId : Int
  nextTransactionId : Int
deriving DecidableEq

/-- A freshly created database (`setup_database.py` before seeding). -/
def emptyDB : DB :=
  { users := [], categories := [], locations := [], printers := [],
    items := [], transactions := [],
    nextUserId := 1, nextCategoryId := 1, nextLocationId := 1,
    nextPrinterId := 1, nextItemId := 1, nextTransactionId := 1 }

/-- `POST /api/auth/register`: insert the user; a UNIQUE violation on
`username` or `email` is caught and surfaced as a 400. -/
def register (db : DB) (u : UserRegister) : DB × Outcome User :=
  if db.users.any (fun w => w.username == u.username || w.email == u.email) then
    (db, .httpError 400 ("Username or email already exists"))
  else
    let row : User :=
      { id := db.nextUserId, username := u.username, password := u.password,
        email := u.email, role := u.role }
    ({ db with users := db.users ++ [row], nextUserId := db.nextUserId + 1 }, .ok row)

/-- `POST /api/categories`: insert the category; a UNIQUE violation on
`name` is caught and surfaced as a 400. -/
def create_category (db : DB) (c : CategoryCreate) : DB × Outcome Category :=
  if db.categories.any (fun k => k.name == c.name) then
    (db, .httpError 400 ("Category already exists"))
  else
    let row : Category :=
      { id := db.nextCategoryId, name := c.name, description := c.description }
    ({ db with categories := db.categories ++ [row],
               nextCategoryId := db.nextCategoryId + 1 }, .ok row)

/-- `POST /api/locations`: insert the location; a UNIQUE violation on
`name` is caught and surfaced as a 400. -/
def create_location (db : DB) (l : LocationCreate) : DB × Outcome Location :=
  if db.locations.any (fun k => k.name == l.name) then
    (db, .httpError 400 ("Location already exists"))
  else
    let row : Location := { id := db.nextLocationId, name := l.name, address := l.address }
    ({ db with locations := db.locations ++ [row],
               nextLocationId := db.nextLocationId + 1 }, .ok row)

/-- `PUT /api/locations/{location_id}`: run the UPDATE, then 404 when no
row has that id.  The UPDATE itself has no try/except, so renaming onto
another location's UNIQUE `name` raises an uncaught `IntegrityError`. -/
def update_location (db : DB) (location_id : Int) (l : LocationCreate) :
    DB × Outcome Location :=
  match db.locations.find? (fun k => k.id == location_id) with
  | none => (db, .httpError 404 ("Location not found"))
  | some _ =>
    if db.locations.any (fun k => k.id != location_id && k.name == l.name) then
      (db, .serverError ("UNIQUE constraint failed: locations.name"))
    else
      let locations := db.locations.map (fun k =>
        if k.id == location_id then { k with name := l.name, address := l.address } else k)
      ({ db with locations := locations },
       .ok { id := location_id, name := l.name, address := l.address })

/-- `POST /api/printers`: insert the printer; a UNIQUE violation on
`serial_number` is caught and surfaced as a 400. -/
def create_printer (db : DB) (p : PrinterCreate) : DB × Outcome Printer :=
  if db.printers.any (fun k => k.serial_number == p.serial_number) then
    (db, .httpError 400 ("Serial number already exists"))
  else
    let row : Printer :=
      { id := db.nextPrinterId, model := p.model, serial_number := p.serial_number,
        location_id := p.location_id, status := p.status, supplies := p.supplies }
    ({ db with printers := db.printers ++ [row],
               nextPrinterId := db.nextPrinterId + 1 }, .ok row)

/-- `PUT /api/printers/{printer_id}`: run the UPDATE, then 404 when no
row has that id.  No try/except: a duplicate `serial_number` raises an
uncaught `IntegrityError`. -/
def update_printer (db : DB) (printer_id : Int) (p : PrinterCreate) :
    DB × Outcome Printer :=
  match db.printers.find? (fun k => k.id == printer_id) with
  | none => (db, .httpError 404 ("Printer not found"))
  | some _ =>
    if db.printers.any (fun k => k.id != printer_id && k.serial_number == p.serial_number) then
      (db, .serverError ("UNIQUE constraint failed: printers.serial_number"))
    else
      let printers := db.printers.map (fun k =>
        if k.id == printer_id then
          { k with model := p.model, serial_number := p.serial_number,
                   location_id := p.location_id, status := p.status,
                   supplies := p.supplies }
        else k)
      ({ db with printers := printers },
       .ok { id := printer_id, model := p.model, serial_number := p.serial_number,
             location_id := p.location_id, status := p.status, supplies := p.supplies })

/-- `POST /api/inventory`: compute `status` from `quantity < min_stock`,
insert the row; a UNIQUE violation on `sku` is caught and surfaced as a
400. -/
def create_inventory_item (db : DB) (item : InventoryItemCreate) :
    DB × Outcome InventoryItem :=
  if db.items.any (fun i => i.sku == item.sku) then
    (db, .httpError 400 ("SKU already exists"))
  else
    let status := if item.quantity < item.min_stock then "Low Stock" else "In Stock"
    let row : InventoryItem :=
      { id := db.nextItemId, name := item.name, sku := item.sku,
        category_id := item.category_id, quantity := item.quantity,
        min_stock := item.min_stock, price := item.price,
        location_id := item.location_id, printer_id := none, status := status }
    ({ db with items := db.items ++ [row], nextItemId := db.nextItemId + 1 }, .ok row)

/-- `PUT /api/inventory/{item_id}`: recompute `status` from the new
`quantity`/`min_stock`, run the UPDATE (all mutable columns, `printer_id`
untouched), then 404 when no row has that id.  No try/except: setting an
existing row's `sku` to another row's `sku` raises an uncaught
`IntegrityError`. -/
def update_inventory_item (db : DB) (item_id : Int) (item : InventoryItemCreate) :
    DB × Outcome InventoryItem :=
  let status := if item.quantity < item.min_stock then "Low Stock" else "In Stock"
  match db.items.find? (fun i => i.id == item_id) with
  | none => (db, .httpError 404 ("Item not found"))
  | some i0 =>
    if db.items.any (fun i => i.id != item_id && i.sku == item.sku) then
      (db, .serverError ("UNIQUE constraint failed: inventory_items.sku"))
    else
      let upd := fun (i : InventoryItem) =>
        { i with name := item.name, sku := item.sku, category_id := item.category_id,
                 quantity := item.quantity, min_stock := item.min_stock,
                 price := item.price, location_id := item.location_id, status := status }
      let items := db.items.map (fun i => if i.id == item_id then upd i else i)
      ({ db with items := items }, .ok (upd i0))

/-- `DELETE /api/inventory/{item_id}`: unconditional DELETE, always a
success message. -/
def delete_inventory_item (db : DB) (item_id : Int) : DB × Outcome String :=
  ({ db with items := db.items.filter (fun i => i.id != item_id) },
   .ok ("Item deleted successfully"))

/-- The joined row `POST /api/transactions` returns: the transaction's
columns plus the LEFT-JOINed item and location names (NULL when the
foreign key dangles). -/
structure TransactionOut where
  trans : Transaction
  item_name : Option String
  location_name : Option String
deriving DecidableEq

/-- `POST /api/transactions`: compute `total_amount = quantity *
price_per_unit`, insert the row, and — only when `transaction_type` is
`"sale"` — decrement the matching inventory item's `quantity` with no
floor check and no status recomputation.  No existence check on
`item_id`/`location_id`; the handler never raises. -/
def create_transaction (db : DB) (t : TransactionCreate) : DB × Outcome TransactionOut :=
  let total_amount := (t.quantity : ℚ) * t.price_per_unit
  let row : Transaction :=
    { id := db.nextTransactionId, item_id := t.item_id, location_id := t.location_id,
      transaction_type := t.transaction_type, quantity := t.quantity,
      price_per_unit := t.price_per_unit, total_amount := total_amount,
      payment_status := t.payment_status, payment_date := t.payment_date,
      notes := t.notes }
  let db1 := { db with transactions := db.transactions ++ [row],
                       nextTransactionId := db.nextTransactionId + 1 }
  let db2 :=
    if t.transaction_type == "sale" then
      { db1 with items := db1.items.map (fun i =>
          if i.id == t.item_id then { i with quantity := i.quantity - t.quantity } else i) }
    else db1
  (db2,
   .ok { trans := row,
         item_name := (db2.items.find? (fun i => i.id == t.item_id)).map (fun i => i.name),
         location_name := (db2.locations.find? (fun l => l.id == t.location_id)).map (fun l => l.name) })

/-- `SUM(total_amount)` over a set of transaction rows (`COALESCE`d to 0
when there are none, as the handlers' `if result else 0` does). -/
def sumAmounts (ts : List Transaction) : ℚ := (ts.map (fun t => t.total_amount)).sum

/-- One row of the `GROUP BY l.name` breakdown in the financial
summary; `location` is NULL when `location_id` dangles. -/
structure LocationBreakdownRow where
  location : Option String
  pending : ℚ
  paid : ℚ
  total : ℚ
deriving DecidableEq

/-- Response of `GET /api/financial/summary`. -/
structure FinancialSummary where
  total_spent : ℚ
  total_pending : ℚ
  total_paid : ℚ
  transactions_by_location : List LocationBreakdownRow
deriving DecidableEq

/-- `GET /api/financial/summary`: the three totals (all transactions,
`payment_status = 'Pending'`, `payment_status = 'Paid'`), each rounded to
2 decimal places, plus per-location-name pending/paid/total sums (those
are not rounded in the source). -/
def get_financial_summary (db : DB) : FinancialSummary :=
  let total_spent := sumAmounts db.transactions
  let pending := sumAmounts (db.transactions.filter (fun t => t.payment_status == "Pending"))
  let paid := sumAmounts (db.transactions.filter (fun t => t.payment_status == "Paid"))
  let keyOf := fun (t : Transaction) =>
    (db.locations.find? (fun l => l.id == t.location_id)).map (fun l => l.name)
  let keys := (db.transactions.map keyOf).dedup
  let by_location := keys.map (fun k =>
    let group := db.transactions.filter (fun t => keyOf t == k)
    { location := k,
      pending := sumAmounts (group.filter (fun t => t.payment_status == "Pending")),
      paid := sumAmounts (group.filter (fun t => t.payment_status == "Paid")),
      total := sumAmounts group : LocationBreakdownRow })
  { total_spent := round2 total_spent, total_pending := round2 pending,
    total_paid := round2 paid, transactions_by_location := by_location }

/-- A row of `GET /api/reports/low-stock`: `ii.*` plus the LEFT-JOINed
category and location names and `total_value = quantity * price`. -/
structure ItemReportRow where
  item : InventoryItem
  category_name : Option String
  location_name : Option String
  total_value : ℚ
deriving DecidableEq

/-- The SELECTed row of the low-stock report for one item: `ii.*` plus
the LEFT-JOINed names and `total_value = quantity * price`. -/
def lowStockRow (db : DB) (i : InventoryItem) : ItemReportRow :=
  { item := i,
    category_name := (db.categories.find? (fun c => c.id == i.category_id)).map (fun c => c.name),
    location_name := (db.locations.find? (fun l => l.id == i.location_id)).map (fun l => l.name),
    total_value := (i.quantity : ℚ) * i.price }

/-- `GET /api/reports/low-stock`: the items with
`quantity < min_stock` (the predicate re-evaluated at read time, the
stored `status` column ignored), `ORDER BY quantity ASC`. -/
def get_low_stock_report (db : DB) : List ItemReportRow :=
  let rows := db.items.filter (fun i => i.quantity < i.min_stock)
  let sorted := rows.mergeSort (fun a b => a.quantity ≤ b.quantity)
  sorted.map (lowStockRow db)

/-! Concrete sample data, used to instantiate the theorems below. -/

/-- A create request whose quantity is comfortably above `min_stock`. -/
def itemReq1 : InventoryItemCreate :=
  { name := "Toner Cartridge Black", sku := "TCB-001", category_id := 1,
    quantity := 150, min_stock := 50, price := 46, location_id := 1 }

/-- A second create request with a distinct sku. -/
def itemReq2 : InventoryItemCreate :=
  { name := "Paper A4", sku := "PA4-500", category_id := 2,
    quantity := 500, min_stock := 200, price := 6, location_id := 1 }

/-- The store after creating `itemReq1` in an empty database. -/
def db1 : DB := (create_inventory_item emptyDB itemReq1).1

/-- The store after also creating `itemReq2`: two items, ids 1 and 2. -/
def dbTwo : DB := (create_inventory_item db1 itemReq2).1

/-- An update request that renames item 1's sku onto item 2's sku. -/
def dupSkuReq : InventoryItemCreate := { itemReq1 with sku := "PA4-500" }

/-- A sale of 130 units against item 1 (quantity 150, min_stock 50). -/
def saleReq1 : TransactionCreate :=
  { item_id := 1, location_id := 1, transaction_type := "sale",
    quantity := 130, price_per_unit := 46 }

/-- A sale of 200 units against item 1: more than is in stock. -/
def oversellReq : TransactionCreate :=
  { item_id := 1, location_id := 1, transaction_type := "sale",
    quantity := 200, price_per_unit := 46 }

/-- A non-sale transaction against item 1. -/
def purchaseReq : TransactionCreate :=
  { item_id := 1, location_id := 1, transaction_type := "purchase",
    quantity := 10, price_per_unit := 46 }

/-- The store after selling 130 of item 1's 150 units: quantity 20 is
below min_stock 50 but the stored status is still "In Stock". -/
def staleDB : DB := (create_transaction db1 saleReq1).1

/-- The store after selling 200 of item 1's 150 units: quantity -50. -/
def negDB : DB := (create_transaction db1 oversellReq).1

/-- A "Pending" transaction of total 0.004 against no particular item. -/
def pendingSmallReq : TransactionCreate :=
  { item_id := 7, location_id := 1, transaction_type := "purchase",
    quantity := 1, price_per_unit := 1/250, payment_status := "Pending" }

/-- A "Paid" transaction of total 0.004. -/
def paidSmallReq : TransactionCreate :=
  { item_id := 7, location_id := 1, transaction_type := "purchase",
    quantity := 1, price_per_unit := 1/250, payment_status := "Paid" }

/-- A store holding one Pending and one Paid transaction of 0.004 each:
each rounds to 0.00 while their 0.008 sum rounds to 0.01. -/
def cexDB : DB :=
  (create_transaction (create_transaction emptyDB pendingSmallReq).1 paidSmallReq).1

/-- A store with one row in every table (two inventory items), used to
exercise each conflict and not-found path. -/
def richDB : DB :=
  { users := [{ id := 1, username := "admin", password := "admin123",
                email := "admin@ims.com", role := "Admin" }],
    categories := [{ id := 1, name := "Toner", description := none }],
    locations := [{ id := 1, name := "Main School", address := "123 Education Street" }],
    printers := [{ id := 1, model := "HP LaserJet", serial_number := "SN-HP-001",
                   location_id := 1, status := "Active", supplies := none }],
    items := [{ id := 1, name := "Toner Cartridge Black", sku := "TCB-001",
                category_id := 1, quantity := 150, min_stock := 50, price := 46,
                location_id := 1, printer_id := none, status := "In Stock" },
              { id := 2, name := "Paper A4", sku := "PA4-500", category_id := 2,
                quantity := 500, min_stock := 200, price := 6, location_id := 1,
                printer_id := none, status := "In Stock" }],
    transactions := [],
    nextUserId := 2, nextCategoryId := 2, nextLocationId := 2,
    nextPrinterId := 2, nextItemId := 3, nextTransactionId := 1 }

/-- The "Pending" row `create_transaction` stores for `pendingSmallReq`. -/
def cexRowPending : Transaction :=
  { id := 1, item_id := 7, location_id := 1, transaction_type := "purchase",
    quantity := 1, price_per_unit := 1/250, total_amount := ((1:ℤ):ℚ) * (1/250),
    payment_status := "Pending", payment_date := none, notes := none }

/-- The "Paid" row `create_transaction` stores for `paidSmallReq`. -/
def cexRowPaid : Transaction :=
  { id := 2, item_id := 7, location_id := 1, transaction_type := "purchase",
    quantity := 1, price_per_unit := 1/250, total_amount := ((1:ℤ):ℚ) * (1/250),
    payment_status := "Paid", payment_date := none, notes := none }

/-- A register request reusing `richDB`'s taken username. -/
def dupUserReq : UserRegister :=
  { username := "admin", password := "pw", email := "new@ims.com" }

/-- A location create request reusing `richDB`'s taken name. -/
def dupLocReq : LocationCreate := { name := "Main School", address := "456 Avenue" }

/-- A printer create request reusing `richDB`'s taken serial number. -/
def dupPrinterReq : PrinterCreate :=
  { model := "Canon imagePRESS", serial_number := "SN-HP-001", location_id := 1 }

/-- A category create request reusing `richDB`'s taken name. -/
def dupCatReq : CategoryCreate := { name := "Toner" }

/-- A sale whose item_id (99) matches no stored item. -/
def danglingSaleReq : TransactionCreate :=
  { item_id := 99, location_id := 42, transaction_type := "sale",
    quantity := 5, price_per_unit := 3 }

/-- A create/update request whose quantity 20 is below min_stock 30. -/
def lowReq : InventoryItemCreate :=
  { name := "Ink Cartridge", sku := "IC-001", category_id := 3,
    quantity := 20, min_stock := 30, price := 25, location_id := 3 }

/-- The row `create_inventory_item` stores for `lowReq` in an empty
store. -/
def lowItem : InventoryItem :=
  { id := 1, name := "Ink Cartridge", sku := "IC-001", category_id := 3,
    quantity := 20, min_stock := 30, price := 25, location_id := 3,
    printer_id := none, status := "Low Stock" }

/-- The store after creating `lowReq` in an empty store. -/
def dbLow : DB := { emptyDB with items := [lowItem], nextItemId := 2 }

/-- The row updateItem yields when item 1 of `richDB` is overwritten
with `lowReq`. -/
def updRow : InventoryItem :=
  { id := 1, name := "Ink Cartridge", sku := "IC-001", category_id := 3,
    quantity := 20, min_stock := 30, price := 25, location_id := 3,
    printer_id := none, status := "Low Stock" }

/-- `richDB` after that update of item 1. -/
def updDB : DB :=
  { richDB with items := [updRow,
      { id := 2, name := "Paper A4", sku := "PA4-500", category_id := 2,
        quantity := 500, min_stock := 200, price := 6, location_id := 1,
        printer_id := none, status := "In Stock" }] }

/-- The tuple of an item's columns other than `quantity`. -/
def itemFrame (i : InventoryItem) :
    Int × String × String × Int × Int × ℚ × Int × Option Int × String :=
  (i.id, i.name, i.sku, i.category_id, i.min_stock, i.price, i.location_id,
   i.printer_id, i.status)

/-! ## Theorems -/

/-- C1: a createTransaction call with transaction_type "sale" subtracts
exactly the call's quantity from every stored item whose id equals the
call's item_id (no floor check) and leaves every other item untouched; a
call with any other transaction_type leaves all items unchanged; and the
resulting quantity can in fact go negative (oversell of item 1 in
`negDB`). -/
theorem create_transaction_sale_decrements_quantity (db : DB) (t : TransactionCreate) :
    (t.transaction_type = "sale" →
      (create_transaction db t).1.items =
        db.items.map (fun i =>
          if i.id = t.item_id then { i with quantity := i.quantity - t.quantity } else i))
    ∧ (t.transaction_type ≠ "sale" → (create_transaction db t).1.items = db.items)
    ∧ (∃ i ∈ negDB.items, i.quantity < 0) := by
  refine ⟨fun h => ?_, fun h => ?_, ?_⟩
  · simp [create_transaction, h]
  · simp [create_transaction, h]
  · decide

/-- C1 witness: the sale `saleReq1` rewrites `db1`'s single item to
quantity 150 - 130, while the purchase `purchaseReq` leaves items as
they are. -/
theorem create_transaction_sale_decrements_quantity_witness :
    ((create_transaction db1 saleReq1).1.items =
      db1.items.map (fun i =>
        if i.id = saleReq1.item_id then
          { i with quantity := i.quantity - saleReq1.quantity } else i))
    ∧ (create_transaction db1 purchaseReq).1.items = db1.items :=
  ⟨(create_transaction_sale_decrements_quantity db1 saleReq1).1 rfl,
   (create_transaction_sale_decrements_quantity db1 purchaseReq).2.1 (by decide)⟩

/-- C2: a "sale" createTransaction changes nothing about any stored item
except its quantity — id, name, sku, category_id, min_stock, price,
location_id, printer_id and in particular status are all preserved — and
consequently the reachable state `staleDB` holds an item whose stored
status is "In Stock" while its quantity is below its min_stock. -/
theorem create_transaction_sale_preserves_other_fields (db : DB) (t : TransactionCreate)
    (h : t.transaction_type = "sale") :
    ((create_transaction db t).1.items.map itemFrame = db.items.map itemFrame)
    ∧ (∃ i ∈ staleDB.items, i.status = "In Stock" ∧ i.quantity < i.min_stock) := by
  constructor
  · simp only [create_transaction, h]
    simp only [beq_self_eq_true, if_true, List.map_map]
    refine List.map_congr_left (fun i _ => ?_)
    by_cases hi : i.id = t.item_id <;> simp [itemFrame, hi]
  · decide

/-- C2 witness: instantiated at the sale `saleReq1` against `db1`. -/
theorem create_transaction_sale_preserves_other_fields_witness :
    ((create_transaction db1 saleReq1).1.items.map itemFrame = db1.items.map itemFrame)
    ∧ (∃ i ∈ staleDB.items, i.status = "In Stock" ∧ i.quantity < i.min_stock) :=
  create_transaction_sale_preserves_other_fields db1 saleReq1 rfl

/-- C3: a successful createItem stores the new item with status
"Low Stock" when quantity < min_stock and "In Stock" otherwise, and a
successful updateItem recomputes the stored status by the same rule from
the quantity/min_stock pair supplied in the call. -/
theorem item_status_rule (db : DB) (req : InventoryItemCreate) (item_id : Int) :
    (∀ db' row, create_inventory_item db req = (db', .ok row) →
      row.status = (if req.quantity < req.min_stock then "Low Stock" else "In Stock")
      ∧ db'.items = db.items ++ [row])
    ∧ (∀ db' row, update_inventory_item db item_id req = (db', .ok row) →
      row.status = (if req.quantity < req.min_stock then "Low Stock" else "In Stock")
      ∧ ∀ i ∈ db'.items, i.id = item_id →
          i.status = (if req.quantity < req.min_stock then "Low Stock" else "In Stock")) := by
  constructor
  · intro db' row h
    simp only [create_inventory_item] at h
    split at h
    · exact absurd (congrArg Prod.snd h) (by simp)
    · have hdb := congrArg Prod.fst h
      have hrow := Outcome.ok.inj (congrArg Prod.snd h)
      subst hdb
      subst hrow
      exact ⟨rfl, rfl⟩
  · intro db' row h
    simp only [update_inventory_item] at h
    split at h
    · exact absurd (congrArg Prod.snd h) (by simp)
    · split at h
      · exact absurd (congrArg Prod.snd h) (by simp)
      · have hdb := congrArg Prod.fst h
        have hrow := Outcome.ok.inj (congrArg Prod.snd h)
        subst hdb
        subst hrow
        refine ⟨rfl, ?_⟩
        intro i hi hid
        simp only [List.mem_map] at hi
        obtain ⟨a, _, ha⟩ := hi
        by_cases hai : a.id = item_id
        · rw [← ha, if_pos (by simp [hai])]
        · rw [← ha] at hid ⊢
          rw [if_neg (by simp [hai])] at hid ⊢
          exact absurd hid hai

/-- C3 witness: creating `lowReq` (quantity 20 < min_stock 30) in the
empty store yields stored status "Low Stock", and overwriting item 1 of
`richDB` with `lowReq` recomputes the stored status to "Low Stock". -/
theorem item_status_rule_witness :
    (lowItem.status
        = (if lowReq.quantity < lowReq.min_stock then "Low Stock" else "In Stock")
      ∧ dbLow.items = emptyDB.items ++ [lowItem])
    ∧ updRow.status
        = (if lowReq.quantity < lowReq.min_stock then "Low Stock" else "In Stock") :=
  ⟨(item_status_rule emptyDB lowReq 1).1 dbLow lowItem (by decide),
   ((item_status_rule richDB lowReq 1).2 updDB updRow (by decide)).1⟩

/-- Splitting the transaction sum by payment status: when every status
is "Pending" or "Paid", the Pending-filtered and Paid-filtered sums add
up to the whole sum (before any rounding). -/
theorem sumAmounts_filter_partition (ts : List Transaction)
    (h : ∀ t ∈ ts, t.payment_status = "Pending" ∨ t.payment_status = "Paid") :
    sumAmounts (ts.filter (fun t => t.payment_status == "Pending"))
      + sumAmounts (ts.filter (fun t => t.payment_status == "Paid"))
      = sumAmounts ts := by
  induction ts with
  | nil => simp [sumAmounts]
  | cons t ts ih =>
    have hts := fun x hx => h x (List.mem_cons_of_mem t hx)
    rcases h t (List.mem_cons_self t ts) with h1 | h1
    · rw [List.filter_cons_of_pos (by simp [h1]), List.filter_cons_of_neg (by simp [h1])]
      simp only [sumAmounts, List.map_cons, List.sum_cons] at *
      linarith [ih hts]
    · rw [List.filter_cons_of_neg (by simp [h1]), List.filter_cons_of_pos (by simp [h1])]
      simp only [sumAmounts, List.map_cons, List.sum_cons] at *
      linarith [ih hts]

/-- C4 counterexample: in `cexDB` every transaction's payment_status is
"Pending" or "Paid" (one of each, total 0.004 each), yet the three
rounded figures the summary reports satisfy 0.00 + 0.00 ≠ 0.01: the
claimed equality fails on the rounded values. -/
theorem financial_summary_rounded_sum_cex :
    cexDB.transactions.all
      (fun t => t.payment_status == "Pending" || t.payment_status == "Paid") = true
    ∧ (get_financial_summary cexDB).total_pending + (get_financial_summary cexDB).total_paid
        ≠ (get_financial_summary cexDB).total_spent := by
  have hfP : cexDB.transactions.filter (fun t => t.payment_status == "Pending")
      = [cexRowPending] := rfl
  have hfD : cexDB.transactions.filter (fun t => t.payment_status == "Paid")
      = [cexRowPaid] := rfl
  have htr : cexDB.transactions = [cexRowPending, cexRowPaid] := rfl
  have hP : (get_financial_summary cexDB).total_pending = 0 := by
    simp only [get_financial_summary, hfP]
    simp only [sumAmounts, List.map_cons, List.map_nil, List.sum_cons, List.sum_nil,
      cexRowPending]
    norm_num [round2, roundHalfEven]
  have hD : (get_financial_summary cexDB).total_paid = 0 := by
    simp only [get_financial_summary, hfD]
    simp only [sumAmounts, List.map_cons, List.map_nil, List.sum_cons, List.sum_nil,
      cexRowPaid]
    norm_num [round2, roundHalfEven]
  have hS : (get_financial_summary cexDB).total_spent = 1/100 := by
    simp only [get_financial_summary, htr]
    simp only [sumAmounts, List.map_cons, List.map_nil, List.sum_cons, List.sum_nil,
      cexRowPending, cexRowPaid]
    norm_num [round2, roundHalfEven]
  refine ⟨by decide, ?_⟩
  rw [hP, hD, hS]
  norm_num

/-- C4 (amended): the reported total_spent is the 2-decimal rounding of
the sum of total_amount over all stored transactions (0 when there are
none), and when every transaction's payment_status is exactly "Pending"
or exactly "Paid" the underlying (unrounded) Pending and Paid sums add
up exactly to the unrounded total; the equality of the three rounded
figures themselves can fail by a cent. -/
theorem financial_summary_totals (db : DB) :
    (get_financial_summary db).total_spent = round2 (sumAmounts db.transactions)
    ∧ ((∀ t ∈ db.transactions, t.payment_status = "Pending" ∨ t.payment_status = "Paid") →
      sumAmounts (db.transactions.filter (fun t => t.payment_status == "Pending"))
        + sumAmounts (db.transactions.filter (fun t => t.payment_status == "Paid"))
        = sumAmounts db.transactions) :=
  ⟨rfl, sumAmounts_filter_partition db.transactions⟩

/-- C4 witness: instantiated at `cexDB`, whose two transactions are
Pending and Paid. -/
theorem financial_summary_totals_witness :
    (get_financial_summary cexDB).total_spent = round2 (sumAmounts cexDB.transactions)
    ∧ sumAmounts (cexDB.transactions.filter (fun t => t.payment_status == "Pending"))
        + sumAmounts (cexDB.transactions.filter (fun t => t.payment_status == "Paid"))
        = sumAmounts cexDB.transactions :=
  ⟨(financial_summary_totals cexDB).1, (financial_summary_totals cexDB).2 (by decide)⟩

/-- C5: the low-stock report contains exactly the stored items whose
quantity < min_stock — the predicate evaluated at read time from
quantity and min_stock, with the stored status column playing no role —
and the report is ordered by ascending quantity. -/
theorem low_stock_report_exact_and_sorted (db : DB) :
    ((get_low_stock_report db).map (fun r => r.item)).Perm
      (db.items.filter (fun i => i.quantity < i.min_stock))
    ∧ List.Pairwise (fun a b => a.item.quantity ≤ b.item.quantity)
      (get_low_stock_report db) := by
  have hrep : get_low_stock_report db
      = ((db.items.filter (fun i => i.quantity < i.min_stock)).mergeSort
          (fun a b => a.quantity ≤ b.quantity)).map (lowStockRow db) := rfl
  constructor
  · rw [hrep, List.map_map,
      List.map_congr_left (f := (fun r : ItemReportRow => r.item) ∘ lowStockRow db)
        (g := id) (fun a _ => rfl),
      List.map_id]
    exact List.mergeSort_perm _ _
  · have h2 := @List.sorted_mergeSort InventoryItem
      (fun a b => decide (a.quantity ≤ b.quantity))
      (fun a b c hab hbc => by
        simp only [decide_eq_true_eq] at *
        exact le_trans hab hbc)
      (fun a b => by
        simp only [Bool.or_eq_true, decide_eq_true_eq]
        exact Int.le_total _ _)
      (db.items.filter (fun i => i.quantity < i.min_stock))
    rw [hrep]
    exact List.Pairwise.map _ (fun a b hab => by simpa using hab) h2

/-- C6 counterexample: the claim's "for every stored state ... the first
call succeeds" fails: against `db1`, which already stores sku "TCB-001",
the first createItem call with that sku does not succeed — it returns the
400 conflict and leaves the store unchanged. -/
theorem create_item_existing_sku_first_call_fails :
    (create_inventory_item db1 itemReq1).2.isOk = false
    ∧ create_inventory_item db1 itemReq1
        = (db1, .httpError 400 ("SKU already exists")) := by
  constructor
  · decide
  · decide

/-- C6 (amended): provided no stored item already carries the sku, the
first createItem call with it succeeds, and a second createItem call
with the same sku fails with the 400 ConflictError and leaves the store
exactly as the first call left it. -/
theorem create_item_duplicate_sku_conflict (db : DB) (r1 r2 : InventoryItemCreate)
    (hfresh : ∀ i ∈ db.items, i.sku ≠ r1.sku) (hsame : r2.sku = r1.sku) :
    (create_inventory_item db r1).2.isOk = true
    ∧ create_inventory_item (create_inventory_item db r1).1 r2
        = ((create_inventory_item db r1).1, .httpError 400 ("SKU already exists")) := by
  have hany : db.items.any (fun i => i.sku == r1.sku) = false := by
    simp only [List.any_eq_false, beq_iff_eq]
    exact fun i hi => by simpa using hfresh i hi
  have hXitems : (create_inventory_item db r1).1.items.any (fun i => i.sku == r2.sku)
      = true := by
    simp [create_inventory_item, hany, hsame]
  constructor
  · simp [create_inventory_item, hany, Outcome.isOk]
  · have hgen : ∀ Z : DB, Z.items.any (fun i => i.sku == r2.sku) = true →
        create_inventory_item Z r2 = (Z, .httpError 400 ("SKU already exists")) := by
      intro Z hZ
      simp [create_inventory_item, hZ]
    exact hgen _ hXitems

/-- C6 witness: instantiated at the empty store and the same request
twice. -/
theorem create_item_duplicate_sku_conflict_witness :
    (create_inventory_item emptyDB itemReq1).2.isOk = true
    ∧ create_inventory_item (create_inventory_item emptyDB itemReq1).1 itemReq1
        = ((create_inventory_item emptyDB itemReq1).1,
           .httpError 400 ("SKU already exists")) :=
  create_item_duplicate_sku_conflict emptyDB itemReq1 itemReq1
    (by simp [emptyDB]) rfl

/-- C7 counterexample: renaming item 1's sku onto item 2's sku through
updateItem does not fail with a ConflictError 400 — the UPDATE has no
try/except, so the UNIQUE violation escapes as an uncaught
IntegrityError (a 500-class server error); the store is unchanged. -/
theorem update_item_duplicate_sku_uncaught :
    (update_inventory_item dbTwo 1 dupSkuReq).2
        = Outcome.serverError ("UNIQUE constraint failed: inventory_items.sku")
    ∧ (update_inventory_item dbTwo 1 dupSkuReq).1 = dbTwo := by
  constructor
  · decide
  · decide

/-- C7 (amended): unique-constraint violations in the create operations
surface as a 400 client error whose message names the conflicting field
(sku, username/email, location name, serial number, category name), and
the failing call leaves the store unchanged; but an updateItem call that
sets an existing item's sku equal to a different existing item's sku is
an uncaught integrity error (500-class), not a ConflictError. -/
theorem unique_violation_error_surfacing (db : DB) (it it2 : InventoryItemCreate)
    (u : UserRegister) (lc : LocationCreate) (pc : PrinterCreate) (cc : CategoryCreate)
    (item_id : Int) :
    ((∃ i ∈ db.items, i.sku = it.sku) →
      create_inventory_item db it = (db, .httpError 400 ("SKU already exists")))
    ∧ ((∃ w ∈ db.users, w.username = u.username ∨ w.email = u.email) →
      register db u = (db, .httpError 400 ("Username or email already exists")))
    ∧ ((∃ l ∈ db.locations, l.name = lc.name) →
      create_location db lc = (db, .httpError 400 ("Location already exists")))
    ∧ ((∃ p ∈ db.printers, p.serial_number = pc.serial_number) →
      create_printer db pc = (db, .httpError 400 ("Serial number already exists")))
    ∧ ((∃ c ∈ db.categories, c.name = cc.name) →
      create_category db cc = (db, .httpError 400 ("Category already exists")))
    ∧ ((∃ i ∈ db.items, i.id = item_id) →
       (∃ j ∈ db.items, j.id ≠ item_id ∧ j.sku = it2.sku) →
      (update_inventory_item db item_id it2).2
        = .serverError ("UNIQUE constraint failed: inventory_items.sku")) := by
  refine ⟨fun h => ?_, fun h => ?_, fun h => ?_, fun h => ?_, fun h => ?_,
    fun h h2 => ?_⟩
  · obtain ⟨i, hi, hsku⟩ := h
    have hc : db.items.any (fun j => j.sku == it.sku) = true :=
      List.any_eq_true.mpr ⟨i, hi, by simp [hsku]⟩
    simp [create_inventory_item, hc]
  · obtain ⟨w, hw, hor⟩ := h
    have hc : db.users.any (fun x => x.username == u.username || x.email == u.email)
        = true :=
      List.any_eq_true.mpr ⟨w, hw, by rcases hor with h1 | h1 <;> simp [h1]⟩
    simp [register, hc]
  · obtain ⟨l, hl, hname⟩ := h
    have hc : db.locations.any (fun k => k.name == lc.name) = true :=
      List.any_eq_true.mpr ⟨l, hl, by simp [hname]⟩
    simp [create_location, hc]
  · obtain ⟨p, hp, hser⟩ := h
    have hc : db.printers.any (fun k => k.serial_number == pc.serial_number) = true :=
      List.any_eq_true.mpr ⟨p, hp, by simp [hser]⟩
    simp [create_printer, hc]
  · obtain ⟨c, hcmem, hname⟩ := h
    have hc : db.categories.any (fun k => k.name == cc.name) = true :=
      List.any_eq_true.mpr ⟨c, hcmem, by simp [hname]⟩
    simp [create_category, hc]
  · obtain ⟨i, hi, hid⟩ := h
    obtain ⟨j, hj, hjid, hjsku⟩ := h2
    have hfind : (db.items.find? (fun x => x.id == item_id)).isSome = true :=
      List.find?_isSome.mpr ⟨i, hi, by simp [hid]⟩
    rcases hf : db.items.find? (fun x => x.id == item_id) with _ | i0
    · rw [hf] at hfind
      simp at hfind
    · have hany : db.items.any (fun x => x.id != item_id && x.sku == it2.sku) = true :=
        List.any_eq_true.mpr ⟨j, hj, by simp [hjid, hjsku]⟩
      simp [update_inventory_item, hf, hany]

/-- C7 witness: each conflict path exercised against `richDB`, plus the
uncaught duplicate-sku update. -/
theorem unique_violation_error_surfacing_witness :
    create_inventory_item richDB itemReq1
        = (richDB, .httpError 400 ("SKU already exists"))
    ∧ register richDB dupUserReq
        = (richDB, .httpError 400 ("Username or email already exists"))
    ∧ create_location richDB dupLocReq
        = (richDB, .httpError 400 ("Location already exists"))
    ∧ create_printer richDB dupPrinterReq
        = (richDB, .httpError 400 ("Serial number already exists"))
    ∧ create_category richDB dupCatReq
        = (richDB, .httpError 400 ("Category already exists"))
    ∧ (update_inventory_item richDB 1 dupSkuReq).2
        = .serverError ("UNIQUE constraint failed: inventory_items.sku") :=
  ⟨(unique_violation_error_surfacing richDB itemReq1 dupSkuReq dupUserReq dupLocReq
      dupPrinterReq dupCatReq 1).1 (by decide),
   (unique_violation_error_surfacing richDB itemReq1 dupSkuReq dupUserReq dupLocReq
      dupPrinterReq dupCatReq 1).2.1 (by decide),
   (unique_violation_error_surfacing richDB itemReq1 dupSkuReq dupUserReq dupLocReq
      dupPrinterReq dupCatReq 1).2.2.1 (by decide),
   (unique_violation_error_surfacing richDB itemReq1 dupSkuReq dupUserReq dupLocReq
      dupPrinterReq dupCatReq 1).2.2.2.1 (by decide),
   (unique_violation_error_surfacing richDB itemReq1 dupSkuReq dupUserReq dupLocReq
      dupPrinterReq dupCatReq 1).2.2.2.2.1 (by decide),
   (unique_violation_error_surfacing richDB itemReq1 dupSkuReq dupUserReq dupLocReq
      dupPrinterReq dupCatReq 1).2.2.2.2.2 (by decide) (by decide)⟩

/-- C8: createTransaction performs no existence check: even when item_id
matches no stored item it returns normally, persists the transaction row
with total_amount = quantity * price_per_unit, and — for a "sale" as for
any other type — leaves every stored item's quantity (indeed the whole
items table) unchanged. -/
theorem create_transaction_dangling_fk (db : DB) (t : TransactionCreate)
    (h : ∀ i ∈ db.items, i.id ≠ t.item_id) :
    (create_transaction db t).2.isOk = true
    ∧ (create_transaction db t).1.transactions
        = db.transactions ++
          [{ id := db.nextTransactionId, item_id := t.item_id,
             location_id := t.location_id, transaction_type := t.transaction_type,
             quantity := t.quantity, price_per_unit := t.price_per_unit,
             total_amount := (t.quantity : ℚ) * t.price_per_unit,
             payment_status := t.payment_status, payment_date := t.payment_date,
             notes := t.notes }]
    ∧ (create_transaction db t).1.items = db.items := by
  refine ⟨rfl, ?_, ?_⟩
  · simp only [create_transaction]
    split <;> rfl
  · simp only [create_transaction]
    split
    · refine (List.map_congr_left (g := id) (fun i hi => ?_)).trans (List.map_id _)
      rw [if_neg (by simp [h i hi])]
      rfl
    · rfl

/-- C8 witness: a sale against absent item id 99 in `richDB`. -/
theorem create_transaction_dangling_fk_witness :
    (create_transaction richDB danglingSaleReq).2.isOk = true
    ∧ (create_transaction richDB danglingSaleReq).1.transactions
        = richDB.transactions ++
          [{ id := richDB.nextTransactionId, item_id := danglingSaleReq.item_id,
             location_id := danglingSaleReq.location_id,
             transaction_type := danglingSaleReq.transaction_type,
             quantity := danglingSaleReq.quantity,
             price_per_unit := danglingSaleReq.price_per_unit,
             total_amount := (danglingSaleReq.quantity : ℚ) * danglingSaleReq.price_per_unit,
             payment_status := danglingSaleReq.payment_status,
             payment_date := danglingSaleReq.payment_date,
             notes := danglingSaleReq.notes }]
    ∧ (create_transaction richDB danglingSaleReq).1.items = richDB.items :=
  create_transaction_dangling_fk richDB danglingSaleReq (by decide)

/-- C9: deleting an id that matches no stored item returns the success
message and leaves the store unchanged — no NotFoundError, no 404. -/
theorem delete_item_absent_id_noop (db : DB) (item_id : Int)
    (h : ∀ i ∈ db.items, i.id ≠ item_id) :
    delete_inventory_item db item_id = (db, .ok ("Item deleted successfully")) := by
  have hf : db.items.filter (fun i => i.id != item_id) = db.items :=
    List.filter_eq_self.mpr (fun a ha => by simpa using h a ha)
  simp only [delete_inventory_item, hf]

/-- C9 witness: deleting id 1 from the empty store. -/
theorem delete_item_absent_id_noop_witness :
    delete_inventory_item emptyDB 1 = (emptyDB, .ok ("Item deleted successfully")) :=
  delete_item_absent_id_noop emptyDB 1 (by simp [emptyDB])

/-- C10: whenever createItem, register, updateItem, updateLocation or
updatePrinter terminates in an error (the caught 400 conflicts, the 404
not-found paths, or an uncaught integrity error), the store after the
call is identical to the store before it. -/
theorem failed_write_leaves_db_unchanged (db : DB) (it : InventoryItemCreate)
    (u : UserRegister) (lc : LocationCreate) (pc : PrinterCreate)
    (item_id location_id printer_id : Int) :
    ((create_inventory_item db it).2.isOk = false → (create_inventory_item db it).1 = db)
    ∧ ((register db u).2.isOk = false → (register db u).1 = db)
    ∧ ((update_inventory_item db item_id it).2.isOk = false →
        (update_inventory_item db item_id it).1 = db)
    ∧ ((update_location db location_id lc).2.isOk = false →
        (update_location db location_id lc).1 = db)
    ∧ ((update_printer db printer_id pc).2.isOk = false →
        (update_printer db printer_id pc).1 = db) := by
  refine ⟨fun h => ?_, fun h => ?_, fun h => ?_, fun h => ?_, fun h => ?_⟩
  · by_cases hc : db.items.any (fun i => i.sku == it.sku) = true
    · simp [create_inventory_item, hc]
    · exfalso
      simp [create_inventory_item, hc, Outcome.isOk] at h
  · by_cases hc : db.users.any (fun x => x.username == u.username || x.email == u.email)
        = true
    · simp [register, hc]
    · exfalso
      simp [register, hc, Outcome.isOk] at h
  · rcases hfind : db.items.find? (fun i => i.id == item_id) with _ | i0
    · simp [update_inventory_item, hfind]
    · by_cases hc : db.items.any (fun i => i.id != item_id && i.sku == it.sku) = true
      · simp [update_inventory_item, hfind, hc]
      · exfalso
        simp [update_inventory_item, hfind, hc, Outcome.isOk] at h
  · rcases hfind : db.locations.find? (fun k => k.id == location_id) with _ | l0
    · simp [update_location, hfind]
    · by_cases hc : db.locations.any (fun k => k.id != location_id && k.name == lc.name)
          = true
      · simp [update_location, hfind, hc]
      · exfalso
        simp [update_location, hfind, hc, Outcome.isOk] at h
  · rcases hfind : db.printers.find? (fun k => k.id == printer_id) with _ | p0
    · simp [update_printer, hfind]
    · by_cases hc : db.printers.any
          (fun k => k.id != printer_id && k.serial_number == pc.serial_number) = true
      · simp [update_printer, hfind, hc]
      · exfalso
        simp [update_printer, hfind, hc, Outcome.isOk] at h

/-- C10 witness: a duplicate-sku create, duplicate-username register,
and three absent-id updates, all against `richDB`, each leaving it
unchanged. -/
theorem failed_write_leaves_db_unchanged_witness :
    (create_inventory_item richDB itemReq1).1 = richDB
    ∧ (register richDB dupUserReq).1 = richDB
    ∧ (update_inventory_item richDB 99 itemReq1).1 = richDB
    ∧ (update_location richDB 99 dupLocReq).1 = richDB
    ∧ (update_printer richDB 99 dupPrinterReq).1 = richDB :=
  ⟨(failed_write_leaves_db_unchanged richDB itemReq1 dupUserReq dupLocReq
      dupPrinterReq 99 99 99).1 (by decide),
   (failed_write_leaves_db_unchanged richDB itemReq1 dupUserReq dupLocReq
      dupPrinterReq 99 99 99).2.1 (by decide),
   (failed_write_leaves_db_unchanged richDB itemReq1 dupUserReq dupLocReq
      dupPrinterReq 99 99 99).2.2.1 (by decide),
   (failed_write_leaves_db_unchanged richDB itemReq1 dupUserReq dupLocReq
      dupPrinterReq 99 99 99).2.2.2.1 (by decide),
   (failed_write_leaves_db_unchanged richDB itemReq1 dupUserReq dupLocReq
      dupPrinterReq 99 99 99).2.2.2.2 (by decide)⟩

end IMS
